import Mathlib

/-!
Shallow embedding of src/main.go of mautrix-whatsapp.

Each function of main.go is translated into a pure Lean function. Calls to
collaborators (config loading, the Matrix intent API, remote-session
disconnects, the various Save and Load operations) are modelled by explicit
error oracles passed in an environment structure, and the observable behaviour
of a function is the list of effects it performs together with the process
exit code it produces (if any).
-/

/-- The goroutine kinds spawned with the go keyword in main.go. -/
inductive GoTask where
  | asStart
  | eventProcessorStart
  | updateBotProfile
  | startUsers
  | saveLoop
  | userConnect (jid : String)
  | puppetStart (customMXID : String)
  deriving DecidableEq, Repr

/-- The observable effects performed by the functions of main.go. -/
inductive Eff where
  | printError (msg : String)
  | printLine (msg : String)
  | printHelp
  | logDebug (msg : String)
  | logInfo (msg : String)
  | logWarn (msg : String)
  | logError (msg : String)
  | logFatal (msg : String)
  | setAvatarURL (url : String)
  | setDisplayName (name : String)
  | saveRegistrationFile (path : String)
  | saveConfigFile (path : String)
  | makeAppService
  | asInit
  | openLogFile
  | stateStoreLoad
  | loadUsers
  | loadPortals
  | loadPuppets
  | spawn (t : GoTask)
  | sendStopSaveLoop
  | asStop
  | eventProcessorStop
  | disconnectCall (jid : String)
  | setSession (jid : String) (sess : String)
  | stateStoreSave
  | saveUsers
  | savePortals
  | savePuppets
  | waitForSignal
  deriving DecidableEq, Repr

/-- The bot section of the appservice config (config.AppService.Bot). -/
structure BotConfig where
  displayname : String
  avatar : String
  deriving DecidableEq, Repr

/-- Results of the intent-API setter calls made by UpdateBotProfile:
for each argument value, either none (success) or some error message. -/
structure ProfileEnv where
  setAvatarErr : String → Option String
  setDisplayNameErr : String → Option String

/-- Bridge.UpdateBotProfile (main.go lines 173 to 195), translated
statement by statement. The Go code keeps a single err variable across
both blocks; if the displayname block takes no branch, err retains the
value left by the avatar block. Note that the second branch of the
displayname block tests the length of botConfig.Avatar, exactly as the
source does on line 189. -/
def Bridge.UpdateBotProfile (cfg : BotConfig) (env : ProfileEnv) : List Eff :=
  let avatarStep : List Eff × Option String :=
    if cfg.avatar = "remove" then
      ([Eff.setAvatarURL ""], env.setAvatarErr "")
    else if cfg.avatar.length > 0 then
      ([Eff.setAvatarURL cfg.avatar], env.setAvatarErr cfg.avatar)
    else
      ([], none)
  let avatarWarn : List Eff :=
    match avatarStep.2 with
    | some m => [Eff.logWarn ("Failed to update bot avatar: " ++ m)]
    | none => []
  let displaynameStep : List Eff × Option String :=
    if cfg.displayname = "remove" then
      ([Eff.setDisplayName ""], env.setDisplayNameErr "")
    else if cfg.avatar.length > 0 then
      ([Eff.setDisplayName cfg.displayname], env.setDisplayNameErr cfg.displayname)
    else
      ([], avatarStep.2)
  let displaynameWarn : List Eff :=
    match displaynameStep.2 with
    | some m => [Eff.logWarn ("Failed to update bot displayname: " ++ m)]
    | none => []
  [Eff.logDebug "Updating bot profile"] ++
    avatarStep.1 ++ avatarWarn ++ displaynameStep.1 ++ displaynameWarn

/-- A User as far as Bridge.Stop observes it: its Matrix ID, its
WhatsApp JID (the key of usersByJID) and whether user.Conn is non-nil. -/
structure User where
  mxid : String
  jid : String
  hasConn : Bool
  deriving DecidableEq, Repr

/-- The result of user.Conn.Disconnect(): a resumable session token or
an error. -/
inductive DiscResult where
  | ok (sess : String)
  | err (msg : String)
  deriving DecidableEq, Repr

/-- Environment of Bridge.Stop: the users of usersByJID (as a list, in
some iteration order), the Disconnect oracle keyed by JID, and the
outcomes of the four save operations. -/
structure StopEnv where
  users : List User
  disconnect : String → DiscResult
  stateStoreSaveErr : Option String
  saveUsersErr : Option String
  savePortalsErr : Option String
  savePuppetsErr : Option String

/-- The body of the disconnect loop in Bridge.Stop (main.go lines 218
to 229) for one user: skip when Conn is nil, otherwise call Disconnect
and either log the error or store the returned session. -/
def Bridge.disconnectUser (env : StopEnv) (u : User) : List Eff :=
  if u.hasConn then
    [Eff.logDebug ("Disconnecting " ++ u.mxid), Eff.disconnectCall u.jid] ++
      (match env.disconnect u.jid with
       | DiscResult.err m =>
         [Eff.logError ("Error while disconnecting " ++ u.mxid ++ ": " ++ m)]
       | DiscResult.ok s => [Eff.setSession u.jid s])
  else []

/-- The save sequence at the end of Bridge.Stop (main.go lines 230 to
240): StateStore.Save with its error logged, then SaveUsers, SavePortals
and SavePuppets chained with else-if, each error logged. The chain means
a later save only runs when every earlier collection save succeeded.
(The log message for a SavePortals error says puppets, as in the source.) -/
def Bridge.stopSaves (env : StopEnv) : List Eff :=
  [Eff.stateStoreSave] ++
    (match env.stateStoreSaveErr with
     | some m => [Eff.logWarn ("Failed to save state store: " ++ m)]
     | none => []) ++
    [Eff.saveUsers] ++
    (match env.saveUsersErr with
     | some m => [Eff.logWarn ("Failed to save users: " ++ m)]
     | none =>
       [Eff.savePortals] ++
         match env.savePortalsErr with
         | some m => [Eff.logWarn ("Failed to save puppets: " ++ m)]
         | none =>
           [Eff.savePuppets] ++
             match env.savePuppetsErr with
             | some m => [Eff.logWarn ("Failed to save puppets: " ++ m)]
             | none => [])

/-- Bridge.Stop (main.go lines 214 to 241): send the save-loop stop
signal, stop the appservice and the event processor, disconnect every
user with a live connection, then run the save sequence. -/
def Bridge.Stop (env : StopEnv) : List Eff :=
  [Eff.sendStopSaveLoop, Eff.asStop, Eff.eventProcessorStop] ++
    (env.users.map (Bridge.disconnectUser env)).flatten ++
    Bridge.stopSaves env

/-- Outcomes of the collaborator calls made by Bridge.Init. -/
structure InitEnv where
  makeAppServiceErr : Option String
  openLogFileErr : Option String
  stateStoreLoadErr : Option String
  loadUsersErr : Option String
  loadPortalsErr : Option String
  loadPuppetsErr : Option String

/-- Bridge.Init (main.go lines 114 to 161): each failing step prints or
logs the error and exits with its own code (11 to 16); on success the
function returns with no exit code. -/
def Bridge.Init (env : InitEnv) : List Eff × Option Nat :=
  let tr1 := [Eff.makeAppService]
  match env.makeAppServiceErr with
  | some m => (tr1 ++ [Eff.printError ("Failed to initialize AppService: " ++ m)], some 11)
  | none =>
    let tr2 := tr1 ++ [Eff.asInit, Eff.openLogFile]
    match env.openLogFileErr with
    | some m => (tr2 ++ [Eff.printError ("Failed to open log file: " ++ m)], some 12)
    | none =>
      let tr3 := tr2 ++ [Eff.logDebug "Initializing state store", Eff.stateStoreLoad]
      match env.stateStoreLoadErr with
      | some m => (tr3 ++ [Eff.logFatal ("Failed to load state store: " ++ m)], some 13)
      | none =>
        let tr4 := tr3 ++ [Eff.logDebug "Initializing database", Eff.loadUsers]
        match env.loadUsersErr with
        | some m => (tr4 ++ [Eff.logFatal ("Failed to load users: " ++ m)], some 14)
        | none =>
          let tr5 := tr4 ++ [Eff.loadPortals]
          match env.loadPortalsErr with
          | some m => (tr5 ++ [Eff.logFatal ("Failed to load portals: " ++ m)], some 15)
          | none =>
            let tr6 := tr5 ++ [Eff.loadPuppets]
            match env.loadPuppetsErr with
            | some m => (tr6 ++ [Eff.logFatal ("Failed to load puppets: " ++ m)], some 16)
            | none =>
              (tr6 ++ [Eff.logDebug "Initializing Matrix event processor",
                       Eff.logDebug "Initializing Matrix event handler"], none)

/-- Outcomes of the collaborator calls made by Bridge.GenerateRegistration. -/
structure GenEnv where
  newRegistrationErr : Option String
  saveRegistrationErr : Option String
  saveConfigErr : Option String

/-- Bridge.GenerateRegistration (main.go lines 43 to 63): generate the
registration, save it, save the config, print a message and exit 0;
each failing step prints the error and exits 20, 21 or 22. -/
def Bridge.GenerateRegistration (env : GenEnv) (registrationPath configPath : String) :
    List Eff × Option Nat :=
  match env.newRegistrationErr with
  | some m => ([Eff.printError ("Failed to generate registration: " ++ m)], some 20)
  | none =>
    match env.saveRegistrationErr with
    | some m =>
      ([Eff.saveRegistrationFile registrationPath,
        Eff.printError ("Failed to save registration: " ++ m)], some 21)
    | none =>
      match env.saveConfigErr with
      | some m =>
        ([Eff.saveRegistrationFile registrationPath, Eff.saveConfigFile configPath,
          Eff.printError ("Failed to save config: " ++ m)], some 22)
      | none =>
        ([Eff.saveRegistrationFile registrationPath, Eff.saveConfigFile configPath,
          Eff.printLine "Registration generated. Add the path to the registration to your Synapse config, restart it, then start the bridge."],
         some 0)

/-- Environment of Bridge.StartUsers: the users, the custom MXIDs of the
puppets with a custom MXID, and the outcome of StartCustomMXID per puppet. -/
structure StartEnv where
  users : List User
  customPuppets : List String
  puppetStartErr : String → Option String

/-- Bridge.StartUsers (main.go lines 197 to 212): spawn a goroutine per
user calling Connect, and a goroutine per custom puppet. -/
def Bridge.StartUsers (env : StartEnv) : List Eff :=
  [Eff.logDebug "Starting users"] ++
    env.users.map (fun u => Eff.spawn (GoTask.userConnect u.jid)) ++
    [Eff.logDebug "Starting custom puppets"] ++
    env.customPuppets.map (fun p => Eff.spawn (GoTask.puppetStart p))

/-- The body of the goroutine spawned per custom puppet in
Bridge.StartUsers (main.go lines 204 to 210): log, call StartCustomMXID,
log the error if any, and return. -/
def puppetGoroutineBody (env : StartEnv) (customMXID : String) : List Eff :=
  [Eff.logDebug ("Starting custom puppet " ++ customMXID)] ++
    match env.puppetStartErr customMXID with
    | some m => [Eff.logError ("Failed to start custom puppet: " ++ m)]
    | none => []

/-- Modelled from the spec: the body of the per-user reconnection
goroutine (User.Connect, defined outside src/main.go). Per the spec, a
failure in one user reconnection is logged and isolated; the goroutine
returns normally in either case. -/
def userConnectBody (connectErr : Option String) : List Eff :=
  match connectErr with
  | some m => [Eff.logError ("Failed to connect user: " ++ m)]
  | none => []

/-- Bridge.Start (main.go lines 163 to 171): every subsystem is started
with the go keyword; nothing else runs inline. -/
def Bridge.Start : List Eff :=
  [Eff.logDebug "Starting application service HTTP server",
   Eff.spawn GoTask.asStart,
   Eff.logDebug "Starting event processor",
   Eff.spawn GoTask.eventProcessorStart,
   Eff.spawn GoTask.updateBotProfile,
   Eff.spawn GoTask.startUsers,
   Eff.spawn GoTask.saveLoop]

/-- A buffered Go channel, observed through its capacity and the number
of values currently buffered. -/
structure GoChan where
  capacity : Nat
  buffered : Nat
  deriving DecidableEq, Repr

/-- The stopSaveLoop channel as created in NewBridge (main.go line 102):
make(chan bool, 1). -/
def newStopSaveLoopChan : GoChan := { capacity := 1, buffered := 0 }

/-- A send on a buffered channel blocks exactly when the buffer is full
and no receiver is ready. -/
def GoChan.sendWouldBlock (c : GoChan) : Bool := decide (c.capacity ≤ c.buffered)

/-- A completed buffered send. -/
def GoChan.send (c : GoChan) : GoChan := { c with buffered := c.buffered + 1 }

/-- Modelled from the spec: Bridge.SaveLoop (defined outside
src/main.go) terminates once a stop signal is available on the stop
channel; sending the signal once is sufficient. -/
def saveLoopStopsAfter (c : GoChan) : Bool := decide (0 < c.buffered)

/-- The whole per-invocation environment of the program: command line,
config loading, and the environments of the phases. -/
structure MainEnv where
  flagParseErr : Option String
  wantHelp : Bool
  generateRegistration : Bool
  registrationPath : String
  configPath : String
  configLoadErr : Option String
  genEnv : GenEnv
  initEnv : InitEnv
  stopEnv : StopEnv

/-- NewBridge (main.go lines 93 to 112): load the config; on failure
print the error and exit 10. -/
def NewBridge (env : MainEnv) : List Eff × Option Nat :=
  match env.configLoadErr with
  | some m => ([Eff.printError ("Failed to load config: " ++ m)], some 10)
  | none => ([], none)

/-- Bridge.Main (main.go lines 243 to 262): with the generate flag,
delegate to GenerateRegistration and return; otherwise Init, Start, wait
for a termination signal, Stop, and exit 0. -/
def Bridge.Main (env : MainEnv) : List Eff × Option Nat :=
  if env.generateRegistration then
    Bridge.GenerateRegistration env.genEnv env.registrationPath env.configPath
  else
    match Bridge.Init env.initEnv with
    | (tr, some c) => (tr, some c)
    | (tr, none) =>
      (tr ++ [Eff.logInfo "Bridge initialization complete, starting..."] ++
         Bridge.Start ++
         [Eff.logInfo "Bridge started!", Eff.waitForSignal,
          Eff.logInfo "Interrupt received, stopping..."] ++
         Bridge.Stop env.stopEnv ++
         [Eff.logInfo "Bridge stopped."], some 0)

/-- func main (main.go lines 264 to 279): parse flags (exit 1 on
failure), print help and exit 0 when requested, otherwise NewBridge
followed by Bridge.Main. -/
def mainEntry (env : MainEnv) : List Eff × Option Nat :=
  match env.flagParseErr with
  | some m => ([Eff.printError m, Eff.printHelp], some 1)
  | none =>
    if env.wantHelp then ([Eff.printHelp], some 0)
    else
      match NewBridge env with
      | (tr, some c) => (tr, some c)
      | (tr, none) =>
        let r := Bridge.Main env
        (tr ++ r.1, r.2)

/-! ## Helper predicates and lemmas -/

/-- The three Registry collection saves. -/
def isCollectionSave : Eff → Bool
  | Eff.saveUsers => true
  | Eff.savePortals => true
  | Eff.savePuppets => true
  | _ => false

/-- Effects that write a file (or attempt to). -/
def isFileWriteEff : Eff → Bool
  | Eff.saveRegistrationFile _ => true
  | Eff.saveConfigFile _ => true
  | Eff.openLogFile => true
  | Eff.stateStoreSave => true
  | Eff.saveUsers => true
  | Eff.savePortals => true
  | Eff.savePuppets => true
  | _ => false

/-- Effects that belong to subsystem initialization or startup. -/
def isInitOrStartEff : Eff → Bool
  | Eff.makeAppService => true
  | Eff.asInit => true
  | Eff.openLogFile => true
  | Eff.stateStoreLoad => true
  | Eff.loadUsers => true
  | Eff.loadPortals => true
  | Eff.loadPuppets => true
  | Eff.spawn _ => true
  | _ => false

theorem disconnectUser_no_saves (env : StopEnv) (u : User) :
    (Bridge.disconnectUser env u).filter isCollectionSave = [] := by
  unfold Bridge.disconnectUser
  cases u.hasConn
  · simp
  · cases h : env.disconnect u.jid <;> simp [h, isCollectionSave]

theorem flatten_disconnect_no_saves (env : StopEnv) (us : List User) :
    ((us.map (Bridge.disconnectUser env)).flatten.filter isCollectionSave) = [] := by
  induction us with
  | nil => rfl
  | cons u rest ih =>
    simp only [List.map_cons, List.flatten_cons, List.filter_append,
      disconnectUser_no_saves, ih, List.nil_append]

/-- A profile environment in which every setter call succeeds. -/
def noErrProfileEnv : ProfileEnv :=
  { setAvatarErr := fun _ => none, setDisplayNameErr := fun _ => none }

/-! ## Claims -/

/-- Claim C1: the claim says the displayname policy depends only on the
displayname field (remove clears, non-empty sets, empty leaves
untouched), independent of the avatar. The code checks the length of
the avatar field in the displayname branch (main.go line 189), so with
displayname Bot and an empty avatar no SetDisplayName call is made at
all, and with an empty displayname and a non-empty avatar the
displayname is overwritten with the empty string. -/
theorem C1_displayname_depends_on_avatar :
    Bridge.UpdateBotProfile { displayname := "Bot", avatar := "" } noErrProfileEnv
      = [Eff.logDebug "Updating bot profile"] ∧
    Bridge.UpdateBotProfile { displayname := "", avatar := "A" } noErrProfileEnv
      = [Eff.logDebug "Updating bot profile", Eff.setAvatarURL "A",
         Eff.setDisplayName ""] := by
  constructor <;> rfl

/-- A shutdown environment in which SaveUsers fails and everything else
succeeds, with no users to disconnect. -/
def stopEnvC2 : StopEnv :=
  { users := [], disconnect := fun _ => DiscResult.ok "",
    stateStoreSaveErr := none, saveUsersErr := some "disk full",
    savePortalsErr := none, savePuppetsErr := none }

/-- Claim C2, counterexample: the claim says each of the three
collection saves is attempted even if an earlier save reported an
error. In the code the three saves are chained with else-if, so when
SaveUsers fails, SavePortals and SavePuppets are never called. -/
theorem C2_counterexample :
    Eff.savePortals ∉ Bridge.Stop stopEnvC2 ∧
    Eff.savePuppets ∉ Bridge.Stop stopEnvC2 := by
  decide

/-- Claim C2, amended: during shutdown the collection saves run in the
fixed order users, portals, puppets, each error being logged and never
propagated, but a later collection save is only attempted when every
earlier collection save succeeded (the else-if chain short-circuits);
the state-store save is always attempted and its outcome does not
affect the collection saves. -/
theorem C2_amended_saves_short_circuit (env : StopEnv) :
    (Bridge.Stop env).filter isCollectionSave =
      Eff.saveUsers ::
        (match env.saveUsersErr with
         | some _ => []
         | none =>
           Eff.savePortals ::
             (match env.savePortalsErr with
              | some _ => []
              | none => [Eff.savePuppets])) ∧
    Eff.stateStoreSave ∈ Bridge.Stop env := by
  constructor
  · unfold Bridge.Stop
    rw [List.filter_append, List.filter_append, flatten_disconnect_no_saves]
    unfold Bridge.stopSaves
    cases env.stateStoreSaveErr <;> cases env.saveUsersErr <;>
      cases env.savePortalsErr <;> cases env.savePuppetsErr <;>
      simp [isCollectionSave]
  · unfold Bridge.Stop Bridge.stopSaves
    simp

/-- Claim C9: the stopSaveLoop channel is created with buffer capacity 1
and empty buffer before the loop starts, so the single send performed
first in Bridge.Stop does not block, and one send is sufficient for the
save loop to observe the stop signal and terminate. -/
theorem C9_stop_signal_buffered :
    newStopSaveLoopChan.capacity = 1 ∧
    newStopSaveLoopChan.sendWouldBlock = false ∧
    saveLoopStopsAfter newStopSaveLoopChan.send = true ∧
    ∀ env : StopEnv, (Bridge.Stop env).head? = some Eff.sendStopSaveLoop :=
  ⟨rfl, rfl, rfl, fun _ => rfl⟩

/-- Claim C10: when opening the log file fails during Init (and
app-service setup succeeded), the process exits with code 12; an
app-service setup failure exits 11 and takes precedence, a state-store
load failure exits 13, and the failed log open prevents the state-store
load from being reached. -/
theorem C10_log_open_exit_code (env : InitEnv) (m : String)
    (hAS : env.makeAppServiceErr = none) (hLog : env.openLogFileErr = some m) :
    (Bridge.Init env).2 = some 12 ∧
    Eff.stateStoreLoad ∉ (Bridge.Init env).1 ∧
    (∀ env2 : InitEnv, ∀ m2, env2.makeAppServiceErr = some m2 →
       (Bridge.Init env2).2 = some 11) ∧
    (∀ env3 : InitEnv, ∀ m3, env3.makeAppServiceErr = none →
       env3.openLogFileErr = none → env3.stateStoreLoadErr = some m3 →
       (Bridge.Init env3).2 = some 13) := by
  refine ⟨?_, ?_, ?_, ?_⟩
  · simp [Bridge.Init, hAS, hLog]
  · simp [Bridge.Init, hAS, hLog]
  · intro env2 m2 h2
    simp [Bridge.Init, h2]
  · intro env3 m3 h3a h3b h3c
    simp [Bridge.Init, h3a, h3b, h3c]

/-- An Init environment in which only the log-file open fails. -/
def initEnvC10 : InitEnv :=
  { makeAppServiceErr := none, openLogFileErr := some "boom",
    stateStoreLoadErr := none, loadUsersErr := none,
    loadPortalsErr := none, loadPuppetsErr := none }

/-- Witness for claim C10 at a concrete environment. -/
theorem C10_witness :
    (Bridge.Init initEnvC10).2 = some 12 ∧
    Eff.stateStoreLoad ∉ (Bridge.Init initEnvC10).1 :=
  ⟨(C10_log_open_exit_code initEnvC10 "boom" rfl rfl).1,
   (C10_log_open_exit_code initEnvC10 "boom" rfl rfl).2.1⟩

theorem mem_stopSaves_stateStoreSave (env : StopEnv) :
    Eff.stateStoreSave ∈ Bridge.stopSaves env := by
  unfold Bridge.stopSaves
  simp

theorem mem_stopSaves_saveUsers (env : StopEnv) :
    Eff.saveUsers ∈ Bridge.stopSaves env := by
  unfold Bridge.stopSaves
  cases env.stateStoreSaveErr <;> simp

theorem mem_stop_iff (env : StopEnv) (e : Eff) :
    e ∈ Bridge.Stop env ↔
      (e = Eff.sendStopSaveLoop ∨ e = Eff.asStop ∨ e = Eff.eventProcessorStop) ∨
      (∃ u ∈ env.users, e ∈ Bridge.disconnectUser env u) ∨
      e ∈ Bridge.stopSaves env := by
  unfold Bridge.Stop
  simp [List.mem_append, List.mem_flatten, List.mem_map]
  aesop

theorem disconnectCall_mem_disconnectUser (env : StopEnv) (v : User)
    (hc : v.hasConn = true) :
    Eff.disconnectCall v.jid ∈ Bridge.disconnectUser env v := by
  unfold Bridge.disconnectUser
  rw [hc]
  simp

theorem setSession_mem_disconnectUser (env : StopEnv) (v : User)
    (hc : v.hasConn = true) (s : String)
    (h : env.disconnect v.jid = DiscResult.ok s) :
    Eff.setSession v.jid s ∈ Bridge.disconnectUser env v := by
  unfold Bridge.disconnectUser
  rw [hc, h]
  simp

theorem mem_disconnectUser_shape (env : StopEnv) (v : User) (e : Eff)
    (he : e ∈ Bridge.disconnectUser env v) :
    (∃ m, e = Eff.logDebug m) ∨ e = Eff.disconnectCall v.jid ∨
    (∃ m, e = Eff.logError m) ∨ (∃ s, e = Eff.setSession v.jid s) := by
  unfold Bridge.disconnectUser at he
  cases hc : v.hasConn
  · rw [hc] at he
    simp at he
  · rw [hc] at he
    rcases hd : env.disconnect v.jid with s | m <;> rw [hd] at he <;>
      simp only [if_true, List.mem_append, List.mem_cons, List.mem_singleton,
        List.not_mem_nil, or_false] at he <;> aesop

theorem mem_stopSaves_shape (env : StopEnv) (e : Eff)
    (he : e ∈ Bridge.stopSaves env) :
    e = Eff.stateStoreSave ∨ e = Eff.saveUsers ∨ e = Eff.savePortals ∨
    e = Eff.savePuppets ∨ (∃ m, e = Eff.logWarn m) := by
  unfold Bridge.stopSaves at he
  rcases h1 : env.stateStoreSaveErr with _ | m1 <;>
    rcases h2 : env.saveUsersErr with _ | m2 <;>
    rcases h3 : env.savePortalsErr with _ | m3 <;>
    rcases h4 : env.savePuppetsErr with _ | m4 <;>
    simp only [h1, h2, h3, h4, List.mem_append, List.mem_cons,
      List.mem_singleton, List.not_mem_nil, or_false] at he <;>
    aesop

/-- Claim C3: even when one user with an active session fails to
disconnect during shutdown, every other user with an active session
still gets its disconnect call, the state store is still saved, the
collection save sequence still starts with SaveUsers, and the save
sequence is independent of the disconnect outcomes altogether. -/
theorem C3_disconnect_error_isolated (env : StopEnv) (u : User) (m : String)
    (hu : u ∈ env.users) (hc : u.hasConn = true)
    (he : env.disconnect u.jid = DiscResult.err m) :
    (∀ v ∈ env.users, v.hasConn = true →
       Eff.disconnectCall v.jid ∈ Bridge.Stop env) ∧
    Eff.stateStoreSave ∈ Bridge.Stop env ∧
    Eff.saveUsers ∈ Bridge.Stop env ∧
    ∀ d2 : String → DiscResult,
      Bridge.stopSaves { env with disconnect := d2 } = Bridge.stopSaves env := by
  refine ⟨?_, ?_, ?_, fun d2 => rfl⟩
  · intro v hv hvc
    rw [mem_stop_iff]
    exact Or.inr (Or.inl ⟨v, hv, disconnectCall_mem_disconnectUser env v hvc⟩)
  · rw [mem_stop_iff]
    exact Or.inr (Or.inr (mem_stopSaves_stateStoreSave env))
  · rw [mem_stop_iff]
    exact Or.inr (Or.inr (mem_stopSaves_saveUsers env))

/-- A shutdown environment with two connected users, the first of which
fails to disconnect. -/
def stopEnvC3 : StopEnv :=
  { users := [{ mxid := "@a:hs", jid := "j1", hasConn := true },
              { mxid := "@b:hs", jid := "j2", hasConn := true }],
    disconnect := fun j =>
      if j = "j1" then DiscResult.err "network down" else DiscResult.ok "tok",
    stateStoreSaveErr := none, saveUsersErr := none,
    savePortalsErr := none, savePuppetsErr := none }

/-- Witness for claim C3 at a concrete environment. -/
theorem C3_witness :
    Eff.disconnectCall "j2" ∈ Bridge.Stop stopEnvC3 ∧
    Eff.stateStoreSave ∈ Bridge.Stop stopEnvC3 := by
  have h := C3_disconnect_error_isolated stopEnvC3
    { mxid := "@a:hs", jid := "j1", hasConn := true } "network down"
    (by decide) rfl (by decide)
  exact ⟨h.1 { mxid := "@b:hs", jid := "j2", hasConn := true } (by decide) rfl,
         h.2.1⟩

/-- Claim C4: during shutdown every user with a live connection gets a
disconnect call and, when Disconnect returns a session token, a
SetSession storing that token; a user without a live connection is
skipped entirely (no disconnect call and no session store for its JID). -/
theorem C4_disconnect_and_store_token (env : StopEnv)
    (hnodup : (env.users.map User.jid).Nodup) :
    ∀ u ∈ env.users,
      (u.hasConn = true →
        Eff.disconnectCall u.jid ∈ Bridge.Stop env ∧
        ∀ s, env.disconnect u.jid = DiscResult.ok s →
          Eff.setSession u.jid s ∈ Bridge.Stop env) ∧
      (u.hasConn = false →
        Eff.disconnectCall u.jid ∉ Bridge.Stop env ∧
        ∀ s, Eff.setSession u.jid s ∉ Bridge.Stop env) := by
  intro u hu
  have hinj : ∀ x ∈ env.users, ∀ y ∈ env.users, x.jid = y.jid → x = y :=
    List.inj_on_of_nodup_map hnodup
  constructor
  · intro hc
    refine ⟨?_, ?_⟩
    · rw [mem_stop_iff]
      exact Or.inr (Or.inl ⟨u, hu, disconnectCall_mem_disconnectUser env u hc⟩)
    · intro s hs
      rw [mem_stop_iff]
      exact Or.inr (Or.inl ⟨u, hu, setSession_mem_disconnectUser env u hc s hs⟩)
  · intro hc
    constructor
    · intro hmem
      rw [mem_stop_iff] at hmem
      rcases hmem with h | ⟨v, hv, hev⟩ | h
      · rcases h with h | h | h <;> exact Eff.noConfusion h
      · rcases mem_disconnectUser_shape env v _ hev with ⟨m, h⟩ | h | ⟨m, h⟩ | ⟨s, h⟩
        · exact Eff.noConfusion h
        · have hjid : u.jid = v.jid := Eff.disconnectCall.inj h
          have huv : u = v := hinj u hu v hv hjid
          subst huv
          unfold Bridge.disconnectUser at hev
          rw [hc] at hev
          simp at hev
        · exact Eff.noConfusion h
        · exact Eff.noConfusion h
      · rcases mem_stopSaves_shape env _ h with h | h | h | h | ⟨m, h⟩ <;>
          exact Eff.noConfusion h
    · intro s hmem
      rw [mem_stop_iff] at hmem
      rcases hmem with h | ⟨v, hv, hev⟩ | h
      · rcases h with h | h | h <;> exact Eff.noConfusion h
      · rcases mem_disconnectUser_shape env v _ hev with ⟨m, h⟩ | h | ⟨m, h⟩ | ⟨s2, h⟩
        · exact Eff.noConfusion h
        · exact Eff.noConfusion h
        · exact Eff.noConfusion h
        · have hjid : u.jid = v.jid := (Eff.setSession.inj h).1
          have huv : u = v := hinj u hu v hv hjid
          subst huv
          unfold Bridge.disconnectUser at hev
          rw [hc] at hev
          simp at hev
      · rcases mem_stopSaves_shape env _ h with h | h | h | h | ⟨m, h⟩ <;>
          exact Eff.noConfusion h

/-- A shutdown environment with one connected user and one user without
a connection. -/
def stopEnvC4 : StopEnv :=
  { users := [{ mxid := "@a:hs", jid := "j1", hasConn := true },
              { mxid := "@c:hs", jid := "j3", hasConn := false }],
    disconnect := fun _ => DiscResult.ok "tok",
    stateStoreSaveErr := none, saveUsersErr := none,
    savePortalsErr := none, savePuppetsErr := none }

/-- Witness for claim C4 at a concrete environment. -/
theorem C4_witness :
    Eff.disconnectCall "j1" ∈ Bridge.Stop stopEnvC4 ∧
    Eff.setSession "j1" "tok" ∈ Bridge.Stop stopEnvC4 ∧
    Eff.disconnectCall "j3" ∉ Bridge.Stop stopEnvC4 := by
  have h := C4_disconnect_and_store_token stopEnvC4 (by decide)
  have h1 := h { mxid := "@a:hs", jid := "j1", hasConn := true } (by decide)
  have h3 := h { mxid := "@c:hs", jid := "j3", hasConn := false } (by decide)
  exact ⟨(h1.1 rfl).1, (h1.1 rfl).2 "tok" rfl, (h3.2 rfl).1⟩

/-- Claim C5: with the generate-registration flag, a valid config and
writable paths, the process saves the registration file, saves the
config file and exits 0, and its trace contains no initialization or
startup effect of any subsystem (no Init step, no spawned unit). -/
theorem C5_generate_registration_only (env : MainEnv)
    (hparse : env.flagParseErr = none) (hhelp : env.wantHelp = false)
    (hcfg : env.configLoadErr = none)
    (hg : env.generateRegistration = true)
    (hreg : env.genEnv.newRegistrationErr = none)
    (hsr : env.genEnv.saveRegistrationErr = none)
    (hsc : env.genEnv.saveConfigErr = none) :
    (mainEntry env).2 = some 0 ∧
    Eff.saveRegistrationFile env.registrationPath ∈ (mainEntry env).1 ∧
    Eff.saveConfigFile env.configPath ∈ (mainEntry env).1 ∧
    ∀ e ∈ (mainEntry env).1, isInitOrStartEff e = false := by
  have hmain : mainEntry env =
      ([Eff.saveRegistrationFile env.registrationPath,
        Eff.saveConfigFile env.configPath,
        Eff.printLine "Registration generated. Add the path to the registration to your Synapse config, restart it, then start the bridge."],
       some 0) := by
    unfold mainEntry NewBridge Bridge.Main Bridge.GenerateRegistration
    rw [hparse, hhelp, hcfg, hg, hreg, hsr, hsc]
    simp
  rw [hmain]
  refine ⟨rfl, by simp, by simp, ?_⟩
  intro e he
  simp only [List.mem_cons, List.mem_singleton, List.not_mem_nil, or_false] at he
  rcases he with rfl | rfl | rfl <;> rfl

/-- A run environment in which every collaborator call succeeds. -/
def okInitEnv : InitEnv :=
  { makeAppServiceErr := none, openLogFileErr := none,
    stateStoreLoadErr := none, loadUsersErr := none,
    loadPortalsErr := none, loadPuppetsErr := none }

/-- A shutdown environment with no users and no failures. -/
def okStopEnv : StopEnv :=
  { users := [], disconnect := fun _ => DiscResult.ok "",
    stateStoreSaveErr := none, saveUsersErr := none,
    savePortalsErr := none, savePuppetsErr := none }

/-- A program environment for a successful generate-registration run. -/
def mainEnvC5 : MainEnv :=
  { flagParseErr := none, wantHelp := false, generateRegistration := true,
    registrationPath := "registration.yaml", configPath := "config.yaml",
    configLoadErr := none,
    genEnv := { newRegistrationErr := none, saveRegistrationErr := none,
                saveConfigErr := none },
    initEnv := okInitEnv, stopEnv := okStopEnv }

/-- Witness for claim C5 at a concrete environment. -/
theorem C5_witness :
    (mainEntry mainEnvC5).2 = some 0 ∧
    Eff.saveRegistrationFile "registration.yaml" ∈ (mainEntry mainEnvC5).1 := by
  have h := C5_generate_registration_only mainEnvC5 rfl rfl rfl rfl rfl rfl rfl
  exact ⟨h.1, h.2.1⟩

/-- Claim C6: with an unreadable or invalid config, the process exits
with code 10 and its trace contains no file-writing effect. -/
theorem C6_bad_config_exit_10 (env : MainEnv) (m : String)
    (hparse : env.flagParseErr = none) (hhelp : env.wantHelp = false)
    (hcfg : env.configLoadErr = some m) :
    (mainEntry env).2 = some 10 ∧
    ∀ e ∈ (mainEntry env).1, isFileWriteEff e = false := by
  have hmain : mainEntry env =
      ([Eff.printError ("Failed to load config: " ++ m)], some 10) := by
    unfold mainEntry NewBridge
    rw [hparse, hhelp, hcfg]
    simp
  rw [hmain]
  refine ⟨rfl, ?_⟩
  intro e he
  simp only [List.mem_singleton] at he
  subst he
  rfl

/-- A program environment in which loading the config fails. -/
def mainEnvC6 : MainEnv :=
  { flagParseErr := none, wantHelp := false, generateRegistration := false,
    registrationPath := "registration.yaml", configPath := "config.yaml",
    configLoadErr := some "no such file",
    genEnv := { newRegistrationErr := none, saveRegistrationErr := none,
                saveConfigErr := none },
    initEnv := okInitEnv, stopEnv := okStopEnv }

/-- Witness for claim C6 at a concrete environment. -/
theorem C6_witness :
    (mainEntry mainEnvC6).2 = some 10 :=
  (C6_bad_config_exit_10 mainEnvC6 "no such file" rfl rfl rfl).1

/-- Claim C7: in a normal run (no generate flag) whose initialization
succeeds, the process waits for a termination signal, runs the shutdown
sequence, and exits with code 0 whatever the shutdown environment (all
disconnect and save errors included). -/
theorem C7_exit_zero_after_shutdown (env : MainEnv)
    (hparse : env.flagParseErr = none) (hhelp : env.wantHelp = false)
    (hcfg : env.configLoadErr = none)
    (hg : env.generateRegistration = false)
    (hinit : (Bridge.Init env.initEnv).2 = none) :
    (mainEntry env).2 = some 0 ∧
    Eff.waitForSignal ∈ (mainEntry env).1 ∧
    Eff.sendStopSaveLoop ∈ (mainEntry env).1 := by
  rcases hP : Bridge.Init env.initEnv with ⟨tr, code⟩
  rw [hP] at hinit
  simp only at hinit
  subst hinit
  have hmain : mainEntry env =
      (tr ++ [Eff.logInfo "Bridge initialization complete, starting..."] ++
         Bridge.Start ++
         [Eff.logInfo "Bridge started!", Eff.waitForSignal,
          Eff.logInfo "Interrupt received, stopping..."] ++
         Bridge.Stop env.stopEnv ++
         [Eff.logInfo "Bridge stopped."], some 0) := by
    unfold mainEntry NewBridge Bridge.Main
    rw [hparse, hhelp, hcfg, hg, hP]
    simp
  rw [hmain]
  refine ⟨rfl, ?_, ?_⟩
  · simp
  · simp [Bridge.Stop]

/-- A shutdown environment in which every single shutdown step fails. -/
def stopEnvC7 : StopEnv :=
  { users := [{ mxid := "@a:hs", jid := "j1", hasConn := true }],
    disconnect := fun _ => DiscResult.err "broken",
    stateStoreSaveErr := some "e1", saveUsersErr := some "e2",
    savePortalsErr := some "e3", savePuppetsErr := some "e4" }

/-- A program environment for a normal run whose shutdown steps all
report errors. -/
def mainEnvC7 : MainEnv :=
  { flagParseErr := none, wantHelp := false, generateRegistration := false,
    registrationPath := "registration.yaml", configPath := "config.yaml",
    configLoadErr := none,
    genEnv := { newRegistrationErr := none, saveRegistrationErr := none,
                saveConfigErr := none },
    initEnv := okInitEnv, stopEnv := stopEnvC7 }

/-- Witness for claim C7 at a concrete environment in which every
shutdown step fails. -/
theorem C7_witness :
    (mainEntry mainEnvC7).2 = some 0 :=
  (C7_exit_zero_after_shutdown mainEnvC7 rfl rfl rfl rfl rfl).1

/-- Claim C8: on startup every subsystem is spawned as its own
concurrently-scheduled unit (the traces of Start and StartUsers consist
only of spawn effects and debug logs, so nothing runs inline and no
unit blocks another), each user and each custom puppet gets its own
unit, and a failure inside one unit (a custom puppet start or one user
reconnection) only appends an error log to that unit's own trace. -/
theorem C8_concurrent_startup (env : StartEnv) :
    (∀ e ∈ Bridge.Start, (∃ t, e = Eff.spawn t) ∨ ∃ m, e = Eff.logDebug m) ∧
    Eff.spawn GoTask.asStart ∈ Bridge.Start ∧
    Eff.spawn GoTask.eventProcessorStart ∈ Bridge.Start ∧
    Eff.spawn GoTask.updateBotProfile ∈ Bridge.Start ∧
    Eff.spawn GoTask.startUsers ∈ Bridge.Start ∧
    Eff.spawn GoTask.saveLoop ∈ Bridge.Start ∧
    (∀ e ∈ Bridge.StartUsers env, (∃ t, e = Eff.spawn t) ∨ ∃ m, e = Eff.logDebug m) ∧
    (∀ u ∈ env.users, Eff.spawn (GoTask.userConnect u.jid) ∈ Bridge.StartUsers env) ∧
    (∀ p ∈ env.customPuppets, Eff.spawn (GoTask.puppetStart p) ∈ Bridge.StartUsers env) ∧
    (∀ p m, env.puppetStartErr p = some m →
      puppetGoroutineBody env p =
        [Eff.logDebug ("Starting custom puppet " ++ p),
         Eff.logError ("Failed to start custom puppet: " ++ m)]) ∧
    (∀ m, userConnectBody (some m) = [Eff.logError ("Failed to connect user: " ++ m)]) := by
  refine ⟨?_, by simp [Bridge.Start], by simp [Bridge.Start],
    by simp [Bridge.Start], by simp [Bridge.Start], by simp [Bridge.Start],
    ?_, ?_, ?_, ?_, fun m => rfl⟩
  · intro e he
    simp only [Bridge.Start, List.mem_cons, List.not_mem_nil, or_false] at he
    rcases he with rfl | rfl | rfl | rfl | rfl | rfl | rfl
    · exact Or.inr ⟨_, rfl⟩
    · exact Or.inl ⟨_, rfl⟩
    · exact Or.inr ⟨_, rfl⟩
    · exact Or.inl ⟨_, rfl⟩
    · exact Or.inl ⟨_, rfl⟩
    · exact Or.inl ⟨_, rfl⟩
    · exact Or.inl ⟨_, rfl⟩
  · intro e he
    simp only [Bridge.StartUsers, List.mem_append, List.mem_cons,
      List.not_mem_nil, or_false, List.mem_map] at he
    rcases he with ((rfl | ⟨u, -, rfl⟩) | rfl) | ⟨p, -, rfl⟩
    · exact Or.inr ⟨_, rfl⟩
    · exact Or.inl ⟨_, rfl⟩
    · exact Or.inr ⟨_, rfl⟩
    · exact Or.inl ⟨_, rfl⟩
  · intro u hu
    simp only [Bridge.StartUsers, List.mem_append, List.mem_cons,
      List.not_mem_nil, or_false, List.mem_map]
    exact Or.inl (Or.inl (Or.inr ⟨u, hu, rfl⟩))
  · intro p hp
    simp only [Bridge.StartUsers, List.mem_append, List.mem_cons,
      List.not_mem_nil, or_false, List.mem_map]
    exact Or.inr ⟨p, hp, rfl⟩
  · intro p m h
    simp [puppetGoroutineBody, h]

/-- A startup environment with one user and one custom puppet whose
start fails. -/
def startEnvC8 : StartEnv :=
  { users := [{ mxid := "@a:hs", jid := "j1", hasConn := true }],
    customPuppets := ["@p:hs"],
    puppetStartErr := fun _ => some "bad token" }

/-- Witness for claim C8 at a concrete environment. -/
theorem C8_witness :
    Eff.spawn (GoTask.userConnect "j1") ∈ Bridge.StartUsers startEnvC8 ∧
    Eff.spawn (GoTask.puppetStart "@p:hs") ∈ Bridge.StartUsers startEnvC8 := by
  obtain ⟨-, -, -, -, -, -, -, hu, hp, -, -⟩ := C8_concurrent_startup startEnvC8
  exact ⟨hu { mxid := "@a:hs", jid := "j1", hasConn := true } (by decide),
         hp "@p:hs" (by decide)⟩
